import Mathlib

/-
Verification of the ingestion pipeline and geospatial/relevance query engine
of the providers API. Shallow embedding: each Lean definition translates one
Python function of the repository (app/etl.py, app/geocoding.py,
app/openai_service.py, app/main.py). Machine floats are modelled by the
rationals where arithmetic is exact and by the reals for the trigonometric
haversine formula; Python exceptions are modelled with Except; the database
and the online geocoder are modelled as oracles supplied as parameters.
-/

namespace ProvidersApi

/-! ### Python string primitives used by the source.

These are written as structural recursions over the character list of a
string (rather than through the position-indexed core string functions)
so that every embedded operation evaluates inside the kernel; over ASCII
input they agree with the Python operations the source uses. -/

/-- Digit-only test on characters: nonempty and all characters digits. -/
def digitsOk (l : List Char) : Bool :=
  !l.isEmpty && l.all (fun c => c.isDigit)

/-- Python str.isdigit over ASCII digits. -/
def isDigitTok (w : String) : Bool := digitsOk w.toList

/-- Numeric value of a digit character list. -/
def digitsValL (l : List Char) : Nat :=
  l.foldl (fun n c => 10 * n + (c.toNat - 48)) 0

/-- Numeric value of a digit string. -/
def digitsVal (w : String) : Nat := digitsValL w.toList

/-- Drop leading whitespace of a character list. -/
def dropLeadWs : List Char → List Char
  | [] => []
  | c :: r => if c.isWhitespace then dropLeadWs r else c :: r

/-- Python str.strip(): remove surrounding whitespace. -/
def pyStrip (s : String) : String :=
  String.mk ((dropLeadWs (dropLeadWs s.toList.reverse).reverse))

/-- ASCII lowercase of one character. -/
def lowerChar (c : Char) : Char :=
  if 65 ≤ c.toNat ∧ c.toNat ≤ 90 then Char.ofNat (c.toNat + 32) else c

/-- Python str.lower() over ASCII letters. -/
def pyLower (s : String) : String := String.mk (s.toList.map lowerChar)

/-- Accumulating tokenizer behind split_ws. -/
def splitWsAux : List Char → List Char → List String
  | [], acc => if acc.isEmpty then [] else [String.mk acc.reverse]
  | c :: r, acc =>
    if c.isWhitespace then
      if acc.isEmpty then splitWsAux r []
      else String.mk acc.reverse :: splitWsAux r []
    else splitWsAux r (c :: acc)

/-- Python str.split() with no argument: split on whitespace runs, drop
empties. -/
def split_ws (s : String) : List String := splitWsAux s.toList []

/-- Split a character list on the decimal point, keeping empty pieces
(Python "5.".split of the point gives ["5", ""]). -/
def splitDotAux : List Char → List Char → List (List Char)
  | [], acc => [acc.reverse]
  | c :: r, acc =>
    if c = '.' then acc.reverse :: splitDotAux r [] else splitDotAux r (c :: acc)

/-- Whether the character list n occurs at the head of h. -/
def leadEq : List Char → List Char → Bool
  | [], _ => true
  | _ :: _, [] => false
  | a :: as, b :: bs => a = b && leadEq as bs

/-- Whether n occurs as a contiguous sublist of h. -/
def subChars (n : List Char) : List Char → Bool
  | [] => n.isEmpty
  | c :: rest => leadEq n (c :: rest) || subChars n rest

/-- Python substring membership: needle in hay. -/
def containsSub (needle hay : String) : Bool :=
  subChars needle.toList hay.toList

/-- Python str.zfill(5): left-pad with zeros to length 5, keeping a sign
prefix. -/
def zfill5 (s : String) : String :=
  let l := s.toList
  if 5 ≤ l.length then s
  else
    match l with
    | '-' :: rest => String.mk ('-' :: (List.replicate (5 - l.length) '0' ++ rest))
    | '+' :: rest => String.mk ('+' :: (List.replicate (5 - l.length) '0' ++ rest))
    | _ => String.mk (List.replicate (5 - l.length) '0' ++ l)

/-- Python int(s): optional sign, digits, surrounding whitespace tolerated.
(Underscore separators of Python literals are not modelled.) -/
def parseIntPy (s : String) : Option Int :=
  match (pyStrip s).toList with
  | '-' :: ds => if digitsOk ds then some (-(digitsValL ds : Int)) else none
  | '+' :: ds => if digitsOk ds then some ((digitsValL ds : Nat) : Int) else none
  | ds => if digitsOk ds then some ((digitsValL ds : Nat) : Int) else none

/-- Python Decimal(s) / float(s) on plain decimal notation: optional sign,
digits with at most one decimal point, at least one digit. A non-numeric
token yields none. The value of sign (ip . fp) is built as the single
integer quotient sign (ip * 10^k + fp) / 10^k, which is exactly the value
of the decimal numeral. (Exponent notation and inf/nan are not modelled;
the claims concern only the rejection of non-numeric tokens.) -/
def parseDecimalPy (s : String) : Option ℚ :=
  let signed : Int × List Char :=
    match (pyStrip s).toList with
    | '-' :: r => (-1, r)
    | '+' :: r => (1, r)
    | r => (1, r)
  match splitDotAux signed.2 [] with
  | [ip] =>
    if digitsOk ip then some (Rat.divInt (signed.1 * (digitsValL ip : Int)) 1)
    else none
  | [ip, fp] =>
    if (digitsOk ip || ip.isEmpty) && (digitsOk fp || fp.isEmpty)
        && !(ip.isEmpty && fp.isEmpty) then
      some (Rat.divInt
        (signed.1 * ((digitsValL ip : Int) * (10 ^ fp.length) + (digitsValL fp : Int)))
        ((10 : Int) ^ fp.length))
    else none
  | _ => none

/-- Python int(float x) truncation toward zero: since the denominator of a
rational is positive, the truncated quotient of numerator by denominator
is exactly the integer part. -/
def truncQ (q : ℚ) : Int := q.num.tdiv (q.den : Int)

/-- Python float truthiness of an optional value: None and 0.0 are falsy. -/
def pyTruthyOpt (o : Option ℚ) : Bool :=
  match o with
  | none => false
  | some x => x ≠ 0

/-! ### Data model (app/models.py, app/schemas.py) -/

/-- A persisted provider record. Monetary fields are exact decimals modelled
by rationals, coordinates are optional. star_rating models the Python
attribute of that name: the SQLAlchemy model in models.py declares no
star_rating column, so on every record this repository stores or fetches
the attribute is absent (none) and reading it raises AttributeError; the
spec (section 3) and the response schema expect an externally supplied
rating, which the optional field can also express. -/
structure Provider where
  provider_id : String
  provider_name : String
  provider_city : String
  provider_state : String
  provider_zip_code : Int
  ms_drg_definition : Int
  total_discharges : Int
  average_covered_charges : ℚ
  average_total_payments : ℚ
  average_medicare_payments : ℚ
  latitude : Option ℚ
  longitude : Option ℚ
  star_rating : Option Int
deriving DecidableEq, Repr

/-- One raw CSV row of the extract, restricted to the columns the ETL reads
(app/etl.py). All cells are modelled as the strings the source passes to
int / Decimal / float after str conversion. -/
structure RawRow where
  ccn : String
  org_name : String
  city : String
  state : String
  zip5 : String
  drg_cd : String
  tot_dschrgs : String
  avg_cov_chrg : String
  avg_tot_pymt : String
  avg_mdcr_pymt : String
deriving DecidableEq, Repr

/-! ### Offline geocoding (app/geocoding.py, geocode_zip_code) -/

/-- The zip reference table: rows of (postal code, latitude, longitude). -/
def ZipTable := List (String × ℚ × ℚ)

/-- geocode_zip_code: exact string match of the zero-padded zip against the
reference table, first matching row wins; (none, none) on a miss or an
empty table. -/
def geocode_zip_code (table : List (String × ℚ × ℚ)) (zip_code : String) :
    Option ℚ × Option ℚ :=
  match table.find? (fun e => e.1 = zfill5 zip_code) with
  | some e => (some e.2.1, some e.2.2)
  | none => (none, none)

/-- The unique-zip to coordinate mapping built in load_csv_data lines
100 to 108: a zip enters the mapping only when both returned coordinates
are Python-truthy (so a latitude or longitude of exactly 0.0 is dropped
like a miss). -/
def build_zip_coords (table : List (String × ℚ × ℚ)) :
    List String → List (String × ℚ × ℚ)
  | [] => []
  | z :: zs =>
    match geocode_zip_code table z with
    | (some la, some lo) =>
      if la ≠ 0 ∧ lo ≠ 0 then (z, la, lo) :: build_zip_coords table zs
      else build_zip_coords table zs
    | _ => build_zip_coords table zs

/-- dict.get(zip_code_str, (None, None)) on the mapping. -/
def coordsLookup (m : List (String × ℚ × ℚ)) (k : String) :
    Option ℚ × Option ℚ :=
  match m.find? (fun e => e.1 = k) with
  | some e => (some e.2.1, some e.2.2)
  | none => (none, none)

/-! ### Row validation (app/etl.py, load_csv_data lines 129 to 173) -/

/-- The per-row validation and mapping of load_csv_data: each parse failure
rejects the row with a reason (the printed skip message of the source);
totality of this function models that validation never throws to the
caller (every exception path of the source is a caught continue). -/
def validate_row (coords : List (String × ℚ × ℚ)) (row : RawRow) :
    Except String Provider :=
  let provider_id := pyStrip row.ccn
  let city := pyStrip row.city
  let state := pyStrip row.state
  let zip_code_raw := pyStrip row.zip5
  let zip_code_str := zfill5 zip_code_raw
  match parseIntPy zip_code_raw with
  | none => .error ("Invalid zip code " ++ zip_code_raw)
  | some zip_code =>
  match parseIntPy row.drg_cd with
  | none => .error ("Invalid ms_drg_definition " ++ row.drg_cd)
  | some drg =>
  match parseDecimalPy row.avg_cov_chrg, parseDecimalPy row.avg_tot_pymt,
      parseDecimalPy row.avg_mdcr_pymt with
  | some avg_covered, some avg_total, some avg_medicare =>
    match parseDecimalPy row.tot_dschrgs with
    | none => .error ("Error processing row")
    | some d =>
      let c := coordsLookup coords zip_code_str
      .ok { provider_id := provider_id
            provider_name := pyStrip row.org_name
            provider_city := city
            provider_state := state
            provider_zip_code := zip_code
            ms_drg_definition := drg
            total_discharges := truncQ d
            average_covered_charges := avg_covered
            average_total_payments := avg_total
            average_medicare_payments := avg_medicare
            latitude := c.1
            longitude := c.2
            star_rating := none }
  | _, _, _ => .error ("Invalid decimal value(s)")

/-! ### Persistence writer (app/etl.py, load_csv_data lines 113 to 202)

Storage-layer faults are modelled by a one-shot fault clock: some n means
the (n+1)-th storage operation (connection probe, delete, every commit,
every add) raises; none means no operation raises. -/

/-- Advance the fault clock over one storage operation; the Bool is whether
this operation raises. -/
def tick : Option Nat → Option Nat × Bool
  | none => (none, false)
  | some 0 => (none, true)
  | some (n + 1) => (some n, false)

/-- Outcome of a load run: the rows the store holds after the run, the
processed and error counters, and whether the run completed without an
aborting storage failure. -/
structure LoadResult where
  committed : List Provider
  processed : Nat
  errors : Nat
  ok : Bool
deriving DecidableEq, Repr

/-- The per-row loop of load_csv_data (lines 129 to 188 including the final
commit). pending holds rows added but not yet committed. The per-row
try/except of the source catches every exception of the row body,
including a storage failure raised by db.add or by the batch commit, as a
counted row error and continues; a commit that raises has its in-flight
transaction rolled back, so the pending rows of a failed batch commit are
discarded, never persisted by a later commit. Only the final commit
escapes to the outer handler, which rolls back the in-flight
transaction. -/
def insert_loop (coords : List (String × ℚ × ℚ)) (fail : Option Nat)
    (committed pending : List Provider) (processed errors : Nat) :
    List RawRow → LoadResult
  | [] =>
    match tick fail with
    | (_, true) =>
      { committed := committed, processed := processed, errors := errors,
        ok := false }
    | (_, false) =>
      { committed := committed ++ pending, processed := processed,
        errors := errors, ok := true }
  | r :: rest =>
    match validate_row coords r with
    | .error _ => insert_loop coords fail committed pending processed (errors + 1) rest
    | .ok p =>
      match tick fail with
      | (f1, true) =>
        insert_loop coords f1 committed pending processed (errors + 1) rest
      | (f1, false) =>
        let pending1 := pending ++ [p]
        let processed1 := processed + 1
        if processed1 % 1000 == 0 then
          match tick f1 with
          | (f2, true) =>
            insert_loop coords f2 committed [] processed1 (errors + 1) rest
          | (f2, false) =>
            insert_loop coords f2 (committed ++ pending1) [] processed1 errors rest
        else insert_loop coords f1 committed pending1 processed1 errors rest

/-- load_csv_data storage phase: connection probe, delete-all plus its
commit (one transaction), then the insert loop. A storage failure in the
delete phase aborts with the initial store contents intact. -/
def load_rows (coords : List (String × ℚ × ℚ)) (fail : Option Nat)
    (init : List Provider) (rows : List RawRow) : LoadResult :=
  match tick fail with
  | (_, true) => { committed := init, processed := 0, errors := 0, ok := false }
  | (f1, false) =>
  match tick f1 with
  | (_, true) => { committed := init, processed := 0, errors := 0, ok := false }
  | (f2, false) =>
  match tick f2 with
  | (_, true) => { committed := init, processed := 0, errors := 0, ok := false }
  | (f3, false) => insert_loop coords f3 [] [] 0 0 rows

/-- The validated records of a row list, in order. -/
def validList (coords : List (String × ℚ × ℚ)) : List RawRow → List Provider
  | [] => []
  | r :: rest =>
    match validate_row coords r with
    | .ok p => p :: validList coords rest
    | .error _ => validList coords rest

/-- Number of rows a fault-free run rejects. -/
def countErr (coords : List (String × ℚ × ℚ)) : List RawRow → Nat
  | [] => 0
  | r :: rest =>
    match validate_row coords r with
    | .ok _ => countErr coords rest
    | .error _ => countErr coords rest + 1

/-! ### Relevance ranker (app/openai_service.py, get_relevant_providers)

The database fetches are oracles returning Except (they may raise); the
online geocoder geocode_zip_code_nominatim catches all its exceptions
internally and returns an optional coordinate pair, so it is a pure
oracle; is_within_radius is likewise total in the source (its distance
computation catches failures by returning infinity), and is supplied as a
Boolean membership-test parameter whose real-number implementation is
embedded separately below. -/

/-- DRG hint: first whitespace token that is purely numeric of length at
most 3 (lines 127 to 131). -/
def find_drg : List String → Option Int
  | [] => none
  | w :: ws =>
    if isDigitTok w ∧ w.length ≤ 3 then some ((digitsVal w : Nat) : Int)
    else find_drg ws

/-- Zip hint: first whitespace token that is purely numeric of length 4 or
5 (lines 133 to 138). -/
def find_zip : List String → Option Int
  | [] => none
  | w :: ws =>
    if isDigitTok w ∧ (w.length = 4 ∨ w.length = 5) then
      some ((digitsVal w : Nat) : Int)
    else find_zip ws

/-- The fixed distance keyword list of line 169. -/
def radius_keywords : List String :=
  ["within", "radius", "km", "kilometers", "miles"]

/-- The radius extraction loop of lines 166 to 173: walk the tokens of the
lowered query; the first token passing isdigit, provided some keyword is a
substring of the whole lowered query, overrides the default of 40. -/
def radius_loop (ql : String) (acc : ℚ) : List String → ℚ
  | [] => acc
  | w :: ws =>
    if isDigitTok w ∧ radius_keywords.any (fun k => containsSub k ql) then
      ((digitsVal w : Nat) : ℚ)
    else radius_loop ql acc ws

def extract_radius (ql : String) : ℚ := radius_loop ql 40 (split_ws ql)

/-- Python truthiness of the optional integer hints (a hint of value 0 is
falsy, exactly as in the source conditions). -/
def optTruthyInt (o : Option Int) : Bool :=
  match o with
  | none => false
  | some z => z ≠ 0

/-- db.query with the DRG filter, falling back to an unfiltered fetch when
the filtered result is empty (lines 141 to 151). -/
def drg_candidates (fbd : Int → Except String (List Provider))
    (fa : Unit → Except String (List Provider)) (df : Option Int) :
    Except String (List Provider) :=
  match (match df with
         | some d => if d = 0 then fa () else fbd d
         | none => fa ()) with
  | .error e => .error e
  | .ok l0 => if l0.isEmpty then fa () else .ok l0

/-- The radius filtering step (lines 157 to 199): runs only for a truthy
zip hint whose geocoding returns a truthy pair; providers without
coordinates are skipped; otherwise the provider list passes unchanged.  -/
def radius_filter_step (g : String → Option ℚ × Option ℚ)
    (wr : ℚ → ℚ → ℚ → ℚ → ℚ → Bool) (ql : String) (zf : Option Int)
    (l1 : List Provider) : List Provider :=
  match zf with
  | none => l1
  | some z =>
    if z = 0 then l1
    else
      match g (zfill5 (toString z)) with
      | (some la, some lo) =>
        if la ≠ 0 ∧ lo ≠ 0 then
          let radius_km := extract_radius ql
          l1.filter (fun p =>
            match p.latitude, p.longitude with
            | some pla, some plo => wr la lo pla plo radius_km
            | _, _ => false)
        else l1
      | _ => l1

/-- The rating keyword list of line 224. -/
def ratingWords : List String := ["rating", "star", "best", "top"]

/-- The additive score of one candidate without the final zip-area bonus
(lines 205 to 228). The score reads provider.star_rating, conditionally
at line 225 and unconditionally at line 228; on the records this
repository stores the attribute is absent, so that read raises
AttributeError — the error case here. The id and string comparisons that
the source evaluates first cannot raise, and their partial sums are
discarded when the read raises, so reading the attribute up front is
observationally the same. -/
def score_core (q ql : String) (df zf : Option Int) (p : Provider) :
    Except String ℚ :=
  match p.star_rating with
  | none => .error ("AttributeError: star_rating")
  | some r =>
    let sDrg : ℚ :=
      match df with
      | some d => if d ≠ 0 ∧ p.ms_drg_definition = d then 10 else 0
      | none => 0
    let sZip : ℚ :=
      match zf with
      | some z => if z ≠ 0 ∧ p.provider_zip_code = z then 15 else 0
      | none => 0
    let sLoc : ℚ :=
      if containsSub (pyLower p.provider_city) ql
          ∨ containsSub (pyLower p.provider_state) ql then 5 else 0
    let sName : ℚ :=
      if (split_ws q).any
          (fun w => containsSub (pyLower w) (pyLower p.provider_name)) then 2
      else 0
    let sRateKw : ℚ :=
      if ratingWords.any (fun w => containsSub w ql) then (r : ℚ) * (3 / 10)
      else 0
    let sStar : ℚ := (r : ℚ) * (1 / 10)
    .ok (sDrg + sZip + sLoc + sName + sRateKw + sStar)

/-- The full additive score (lines 205 to 232): core score plus the +20
area bonus, which the source guards only by truthiness of the zip hint;
when the core score raised, the bonus line is never reached. -/
def score_provider (q ql : String) (df zf : Option Int) (p : Provider) :
    Except String ℚ :=
  match score_core q ql df zf p with
  | .error e => .error e
  | .ok s => .ok (s + (if optTruthyInt zf then (20 : ℚ) else 0))

/-- The scoring loop over the candidates (lines 202 to 234): the first
candidate whose scoring raises aborts the whole loop with that
exception. -/
def score_candidates (q ql : String) (df zf : Option Int) :
    List Provider → Except String (List (Provider × ℚ))
  | [] => .ok []
  | p :: ps =>
    match score_provider q ql df zf p with
    | .error e => .error e
    | .ok s =>
      match score_candidates q ql df zf ps with
      | .error e => .error e
      | .ok rest => .ok ((p, s) :: rest)

/-- Stable insertion: place a after every y that must strictly precede it.
Python list.sort is stable, and a stable sort is determined uniquely by
the strict must-precede comparison, so stable insertion sort is a faithful
embedding of it. -/
def insertBy (strictBefore : α → α → Bool) (a : α) : List α → List α
  | [] => [a]
  | y :: ys =>
    if strictBefore y a then y :: insertBy strictBefore a ys else a :: y :: ys

/-- Stable sort by a strict must-precede comparison. -/
def sortBy (strictBefore : α → α → Bool) : List α → List α
  | [] => []
  | a :: as => insertBy strictBefore a (sortBy strictBefore as)

/-- The sort key of line 237 re-reads provider.star_rating. Whenever the
sort runs, the scoring loop has already read the attribute of every
candidate successfully (otherwise the body raised before sorting, see
score_candidates_ok_star), so the default branch here is unreachable; it
only keeps the comparison total. -/
def starDef (p : Provider) : Int := p.star_rating.getD 0

/-- The strict precedence of the descending sort of line 237: by
(score, star_rating) lexicographically with reverse=True, x strictly
precedes y iff its key is lexicographically greater. -/
def sortKeyGt (x y : Provider × ℚ) : Bool :=
  (decide (y.2 < x.2)) ||
    ((decide (x.2 = y.2)) && decide (starDef y.1 < starDef x.1))

/-- Sorting and truncation of the scored candidates (lines 236 to 238). -/
def rank_and_take (lim : Nat) (scored : List (Provider × ℚ)) :
    List Provider :=
  ((sortBy sortKeyGt scored).take lim).map (fun x => x.1)

/-- The try-block body of get_relevant_providers. An error value is a
Python exception escaping the body (here: a database fetch raising). -/
def ranker_body (fbd : Int → Except String (List Provider))
    (fa : Unit → Except String (List Provider))
    (g : String → Option ℚ × Option ℚ)
    (wr : ℚ → ℚ → ℚ → ℚ → ℚ → Bool) (q : String) (lim : Nat) :
    Except String (List Provider) :=
  let ql := pyLower q
  let df := find_drg (split_ws ql)
  let zf := find_zip (split_ws ql)
  match drg_candidates fbd fa df with
  | .error e => .error e
  | .ok l1 =>
    if l1.isEmpty then .ok []
    else
      match score_candidates q ql df zf (radius_filter_step g wr ql zf l1) with
      | .error e => .error e
      | .ok scored => .ok (rank_and_take lim scored)

/-- get_relevant_providers (lines 119 to 244): the body wrapped in the
catch-all handler that turns any escaped exception into an empty list. -/
def get_relevant_providers (fbd : Int → Except String (List Provider))
    (fa : Unit → Except String (List Provider))
    (g : String → Option ℚ × Option ℚ)
    (wr : ℚ → ℚ → ℚ → ℚ → ℚ → Bool) (q : String) (lim : Nat) :
    List Provider :=
  match ranker_body fbd fa g wr q lim with
  | .ok l => l
  | .error _ => []

/-! ### The /providers endpoint (app/main.py, get_providers) -/

/-- The strict precedence of the ascending stable sort by
average_total_payments (line 79). -/
def payLt (x y : Provider) : Bool :=
  decide (x.average_total_payments < y.average_total_payments)

/-- get_providers: optional DRG filter (an is-not-None check, not
truthiness), then, when both zip and radius_km are supplied, geocoding of
the zero-padded zip; a pair with a None component raises the 400 rejection
echoing the zip, otherwise providers without coordinates are skipped and
the rest are radius filtered; the final list is sorted by ascending
average_total_payments. -/
def get_providers (g : String → Option ℚ × Option ℚ)
    (wr : ℚ → ℚ → ℚ → ℚ → ℚ → Bool) (drg : Option Int) (zip : Option Int)
    (radius_km : Option ℚ) (db : List Provider) :
    Except String (List Provider) :=
  let providers : List Provider :=
    match drg with
    | some d => db.filter (fun p => p.ms_drg_definition = d)
    | none => db
  match zip, radius_km with
  | some z, some r =>
    match g (zfill5 (toString z)) with
    | (some la, some lo) =>
      .ok (sortBy payLt (providers.filter (fun p =>
        match p.latitude, p.longitude with
        | some pla, some plo => wr la lo pla plo r
        | _, _ => false)))
    | _ => .error ("Could not geocode zip code: " ++ toString z)
  | _, _ => .ok (sortBy payLt providers)

/-! ### Geospatial filter (app/geocoding.py, calculate_distance and
is_within_radius), embedded over the reals. In exact real arithmetic the
formula is total, so the caught-exception fallback of the source (return
infinity) has no reachable counterpart here. -/

/-- math.radians: degrees to radians. -/
noncomputable def deg2rad (x : ℝ) : ℝ := x * (Real.pi / 180)

/-- calculate_distance: haversine distance on a sphere of radius 6371. -/
noncomputable def calculate_distance (lat1 lon1 lat2 lon2 : ℝ) : ℝ :=
  let rlat1 := deg2rad lat1
  let rlon1 := deg2rad lon1
  let rlat2 := deg2rad lat2
  let rlon2 := deg2rad lon2
  let dlat := rlat2 - rlat1
  let dlon := rlon2 - rlon1
  let a := Real.sin (dlat / 2) ^ 2 +
    Real.cos rlat1 * Real.cos rlat2 * Real.sin (dlon / 2) ^ 2
  let c := 2 * Real.arcsin (Real.sqrt a)
  c * 6371

/-- is_within_radius: inclusive comparison of the distance with the
radius. -/
def is_within_radius (lat1 lon1 lat2 lon2 radius_km : ℝ) : Prop :=
  calculate_distance lat1 lon1 lat2 lon2 ≤ radius_km

/-! ### Spec-side radius token, for comparison with the source behavior -/

/-- Modelled from the spec: a purely numeric token allowing one decimal
point (spec section 4.6, radius hint) — digits and at most one point,
with at least one digit. -/
def specNumTok (w : String) : Bool :=
  !w.isEmpty && w.toList.all (fun c => c.isDigit || c = '.')
    && decide ((w.toList.filter (fun c => c = '.')).length ≤ 1)
    && w.toList.any (fun c => c.isDigit)

/-- Modelled from the spec: the radius hint the spec describes — the first
purely numeric token allowing one decimal point, honored only when a
distance keyword occurs, else 40. -/
def spec_radius (ql : String) : ℚ :=
  if radius_keywords.any (fun k => containsSub k ql) then
    match (split_ws ql).find? specNumTok with
    | some w => ((parseDecimalPy w).getD 40)
    | none => 40
  else 40

/-! ### Concrete fixtures used by witnesses and counterexamples -/

def fixProviderA : Provider :=
  { provider_id := "P1", provider_name := "General Hospital",
    provider_city := "Springfield", provider_state := "IL",
    provider_zip_code := 99999, ms_drg_definition := 470,
    total_discharges := 5, average_covered_charges := 100,
    average_total_payments := 90, average_medicare_payments := 80,
    latitude := none, longitude := none, star_rating := none }

def fixProviderB : Provider :=
  { provider_id := "P2", provider_name := "County Clinic",
    provider_city := "Shelbyville", provider_state := "TX",
    provider_zip_code := 11111, ms_drg_definition := 100,
    total_discharges := 9, average_covered_charges := 50,
    average_total_payments := 40, average_medicare_payments := 30,
    latitude := some 34, longitude := some (-118), star_rating := none }

def fixProviderW : Provider :=
  { provider_id := "P3", provider_name := "Mercy Center",
    provider_city := "Ogdenville", provider_state := "WA",
    provider_zip_code := 54321, ms_drg_definition := 291,
    total_discharges := 2, average_covered_charges := 10,
    average_total_payments := 20, average_medicare_payments := 15,
    latitude := some 47, longitude := some (-122), star_rating := none }

def fixRowA : RawRow :=
  { ccn := "10001", org_name := "A", city := "X", state := "NY",
    zip5 := "10001", drg_cd := "470", tot_dschrgs := "5.0",
    avg_cov_chrg := "100.00", avg_tot_pymt := "90.00",
    avg_mdcr_pymt := "80.00" }

def fixRowB : RawRow :=
  { ccn := "10002", org_name := "B", city := "Y", state := "CA",
    zip5 := "90210", drg_cd := "471", tot_dschrgs := "7.0",
    avg_cov_chrg := "1.00", avg_tot_pymt := "2.00", avg_mdcr_pymt := "3.00" }

/-- The record the validator produces from fixRowB against an empty
coordinate mapping. -/
def fixProvB : Provider :=
  { provider_id := "10002", provider_name := "B", provider_city := "Y",
    provider_state := "CA", provider_zip_code := 90210,
    ms_drg_definition := 471, total_discharges := 7,
    average_covered_charges := 1, average_total_payments := 2,
    average_medicare_payments := 3, latitude := none, longitude := none,
    star_rating := none }

/-- The record the validator produces from fixRowA against an empty
coordinate mapping. -/
def fixProvA : Provider :=
  { provider_id := "10001", provider_name := "A", provider_city := "X",
    provider_state := "NY", provider_zip_code := 10001,
    ms_drg_definition := 470, total_discharges := 5,
    average_covered_charges := 100, average_total_payments := 90,
    average_medicare_payments := 80, latitude := none, longitude := none,
    star_rating := none }

def fixRowBadZip : RawRow :=
  { ccn := "10003", org_name := "C", city := "Z", state := "TX",
    zip5 := "CSV", drg_cd := "208", tot_dschrgs := "3.0",
    avg_cov_chrg := "10.00", avg_tot_pymt := "20.00",
    avg_mdcr_pymt := "30.00" }

/-- A reference table whose entry for 00501 has latitude exactly 0. -/
def fixTableZ : List (String × ℚ × ℚ) := [("00501", 0, 40)]

def fixRowZ : RawRow :=
  { ccn := "10004", org_name := "D", city := "W", state := "NY",
    zip5 := "501", drg_cd := "12", tot_dschrgs := "4.0",
    avg_cov_chrg := "5.00", avg_tot_pymt := "6.00", avg_mdcr_pymt := "7.00" }

/-- The record the validator produces from fixRowZ against the mapping
built from fixTableZ. -/
def fixProvZ : Provider :=
  { provider_id := "10004", provider_name := "D", provider_city := "W",
    provider_state := "NY", provider_zip_code := 501,
    ms_drg_definition := 12, total_discharges := 4,
    average_covered_charges := 5, average_total_payments := 6,
    average_medicare_payments := 7, latitude := none, longitude := none,
    star_rating := none }

/-! ## Theorems -/

/-! ### Shared helper lemmas -/

theorem calculate_distance_self (lat lon : ℝ) :
    calculate_distance lat lon lat lon = 0 := by
  simp [calculate_distance, sub_self, zero_div, Real.sin_zero, zero_pow,
    mul_zero, add_zero, Real.sqrt_zero, Real.arcsin_zero]

/-- When the zip hint geocodes to a pair that is not Python-truthy (a None
component or a component equal to 0.0), the radius filter passes the list
through unchanged. -/
theorem radius_step_miss (g : String → Option ℚ × Option ℚ)
    (wr : ℚ → ℚ → ℚ → ℚ → ℚ → Bool) (ql : String) (z : Int)
    (l1 : List Provider) (hz : z ≠ 0)
    (hg : pyTruthyOpt (g (zfill5 (toString z))).1 = false ∨
      pyTruthyOpt (g (zfill5 (toString z))).2 = false) :
    radius_filter_step g wr ql (some z) l1 = l1 := by
  rcases hp : g (zfill5 (toString z)) with ⟨a, b⟩
  rw [hp] at hg
  simp only [radius_filter_step]
  rw [hp]
  rcases a with _ | la <;> rcases b with _ | lo
  · simp [hz]
  · simp [hz]
  · simp [hz]
  · simp only [pyTruthyOpt, decide_eq_false_iff_not, not_not] at hg
    rcases hg with h | h <;> simp [hz, h]

/-! ### C6 and C7: the geospatial filter -/

/-- C7: the haversine distance (sphere radius 6371, degrees to radians,
the formula of calculate_distance) is symmetric in its two coordinate
pairs, and the distance from a point to itself is 0. -/
theorem c7_haversine_symm_self (lat1 lon1 lat2 lon2 : ℝ) :
    calculate_distance lat1 lon1 lat2 lon2 =
      calculate_distance lat2 lon2 lat1 lon1 ∧
    calculate_distance lat1 lon1 lat1 lon1 = 0 := by
  constructor
  · have hs : ∀ x y : ℝ,
        Real.sin ((x - y) / 2) ^ 2 = Real.sin ((y - x) / 2) ^ 2 := by
      intro x y
      rw [show (x - y) / 2 = -((y - x) / 2) by ring, Real.sin_neg]
      ring
    simp only [calculate_distance]
    rw [hs (deg2rad lat2) (deg2rad lat1), hs (deg2rad lon2) (deg2rad lon1),
      mul_comm (Real.cos (deg2rad lat1)) (Real.cos (deg2rad lat2))]
  · exact calculate_distance_self lat1 lon1

/-- C6: membership in a radius is inclusive — a candidate at distance
exactly radius_km is within the radius, one strictly beyond is not. -/
theorem c6_radius_inclusive (lat1 lon1 lat2 lon2 r : ℝ) :
    (calculate_distance lat1 lon1 lat2 lon2 = r →
      is_within_radius lat1 lon1 lat2 lon2 r) ∧
    (r < calculate_distance lat1 lon1 lat2 lon2 →
      ¬ is_within_radius lat1 lon1 lat2 lon2 r) := by
  constructor
  · intro h
    show calculate_distance lat1 lon1 lat2 lon2 ≤ r
    exact le_of_eq h
  · intro h hin
    exact absurd hin (not_le.mpr h)

theorem c6_radius_inclusive_witness :
    is_within_radius 0 0 0 0 0 ∧ ¬ is_within_radius 0 0 0 0 (-1) :=
  ⟨(c6_radius_inclusive 0 0 0 0 0).1 (calculate_distance_self 0 0),
   (c6_radius_inclusive 0 0 0 0 (-1)).2
     (by rw [calculate_distance_self 0 0]; norm_num)⟩

/-! ### Shared scoring and ranking helpers -/

/-- Helper: ranking an empty scored list yields the empty list. -/
theorem rank_and_take_nil (lim : Nat) : rank_and_take lim [] = [] := by
  cases lim <;> rfl

/-- Helper: scoring a candidate list whose first record lacks the
star_rating attribute raises AttributeError immediately. -/
theorem score_candidates_head_no_star (q ql : String) (df zf : Option Int)
    (p : Provider) (rest : List Provider) (h : p.star_rating = none) :
    score_candidates q ql df zf (p :: rest) =
      .error ("AttributeError: star_rating") := by
  simp only [score_candidates, score_provider, score_core, h]

/-- Helper: a candidate scored successfully has the star_rating
attribute. -/
theorem score_provider_ok_star (q ql : String) (df zf : Option Int)
    (p : Provider) (s : ℚ) (h : score_provider q ql df zf p = .ok s) :
    p.star_rating ≠ none := by
  intro hn
  simp only [score_provider, score_core, hn] at h
  exact Except.noConfusion h

/-- Helper: when the scoring loop completes, every scored candidate has the
star_rating attribute, so the sort key that re-reads it never falls back
to its default. -/
theorem score_candidates_ok_star (q ql : String) (df zf : Option Int) :
    ∀ (ps : List Provider) (scored : List (Provider × ℚ)),
      score_candidates q ql df zf ps = .ok scored →
      ∀ x ∈ scored, x.1.star_rating ≠ none := by
  intro ps
  induction ps with
  | nil =>
    intro scored h x hx
    simp only [score_candidates, Except.ok.injEq] at h
    subst h
    simp at hx
  | cons p rest ih =>
    intro scored h x hx
    simp only [score_candidates] at h
    cases hsp : score_provider q ql df zf p with
    | error e => rw [hsp] at h; exact absurd h (by simp)
    | ok s =>
      rw [hsp] at h
      cases hsc : score_candidates q ql df zf rest with
      | error e => rw [hsc] at h; exact absurd h (by simp)
      | ok scored0 =>
        rw [hsc] at h
        simp only [Except.ok.injEq] at h
        subst h
        rcases List.mem_cons.mp hx with hx0 | hx0
        · subst hx0
          exact score_provider_ok_star q ql df zf p s hsp
        · exact ih scored0 hsc x hx0

/-- Helper: with a nonempty candidate list the ranker reduces to scoring
the radius-filtered candidates: an exception escaping scoring yields the
empty list, a completed scoring yields the sorted truncation. -/
theorem ranker_nonempty_path (fbd : Int → Except String (List Provider))
    (fa : Unit → Except String (List Provider))
    (g : String → Option ℚ × Option ℚ) (wr : ℚ → ℚ → ℚ → ℚ → ℚ → Bool)
    (q : String) (lim : Nat) (x : Provider) (xs : List Provider)
    (hd : drg_candidates fbd fa (find_drg (split_ws (pyLower q))) =
      .ok (x :: xs)) :
    get_relevant_providers fbd fa g wr q lim =
      (match score_candidates q (pyLower q) (find_drg (split_ws (pyLower q)))
          (find_zip (split_ws (pyLower q)))
          (radius_filter_step g wr (pyLower q)
            (find_zip (split_ws (pyLower q))) (x :: xs)) with
       | .error _ => []
       | .ok scored => rank_and_take lim scored) := by
  unfold get_relevant_providers
  simp only [ranker_body]
  rw [hd]
  simp only [List.isEmpty_cons, Bool.false_eq_true, if_false]
  cases hsc : score_candidates q (pyLower q) (find_drg (split_ws (pyLower q)))
      (find_zip (split_ws (pyLower q)))
      (radius_filter_step g wr (pyLower q) (find_zip (split_ws (pyLower q)))
        (x :: xs)) with
  | error e => rfl
  | ok scored => rfl

/-! ### C1: query-path geocode failure -/

/-- C1 counterexample: on the relevance-ranking path, a query whose zip
hint (12345) cannot be geocoded (the resolver returns (None, None)) is
not rejected: no error echoing the zip reaches the caller. With the
record this repository actually stores — it has no star_rating
attribute — scoring then raises AttributeError, which the catch-all
absorbs, so the caller silently receives an empty result list: exactly
the outcome the claim forbids. -/
theorem c1_counterexample :
    ranker_body (fun _ => .ok []) (fun _ => .ok [fixProviderA])
      (fun _ => (none, none)) (fun _ _ _ _ _ => false) ("care 12345") 10 =
      .error ("AttributeError: star_rating") ∧
    get_relevant_providers (fun _ => .ok []) (fun _ => .ok [fixProviderA])
      (fun _ => (none, none)) (fun _ _ _ _ _ => false) ("care 12345") 10 =
      [] :=
  ⟨rfl, by decide⟩

/-- C1 amended: only the /providers path rejects an ungeocodable zip. If
zip and radius are supplied and the geocoder returns a pair with a None
component, get_providers raises the 400 rejection echoing the zip. On the
relevance-ranking path the failure is absorbed without any rejection:
radius filtering is skipped, and because the stored records carry no
star_rating attribute, scoring of the first candidate raises and the
caller silently receives an empty result list. -/
theorem c1_amended :
    (∀ (g : String → Option ℚ × Option ℚ) (wr : ℚ → ℚ → ℚ → ℚ → ℚ → Bool)
       (drg : Option Int) (z : Int) (r : ℚ) (db : List Provider),
       ((g (zfill5 (toString z))).1 = none ∨
        (g (zfill5 (toString z))).2 = none) →
       get_providers g wr drg (some z) (some r) db =
         .error ("Could not geocode zip code: " ++ toString z)) ∧
    (∀ (fbd : Int → Except String (List Provider))
       (fa : Unit → Except String (List Provider))
       (g : String → Option ℚ × Option ℚ) (wr : ℚ → ℚ → ℚ → ℚ → ℚ → Bool)
       (q : String) (lim : Nat) (l1 : List Provider) (z : Int)
       (p : Provider) (rest : List Provider),
       find_zip (split_ws (pyLower q)) = some z → z ≠ 0 →
       (pyTruthyOpt (g (zfill5 (toString z))).1 = false ∨
        pyTruthyOpt (g (zfill5 (toString z))).2 = false) →
       drg_candidates fbd fa (find_drg (split_ws (pyLower q))) = .ok l1 →
       l1 = p :: rest → p.star_rating = none →
       radius_filter_step g wr (pyLower q) (some z) l1 = l1 ∧
       get_relevant_providers fbd fa g wr q lim = []) := by
  constructor
  · intro g wr drg z r db hg
    simp only [get_providers]
    rcases hp : g (zfill5 (toString z)) with ⟨a, b⟩
    rw [hp] at hg
    rcases a with _ | la <;> rcases b with _ | lo <;> simp_all
  · intro fbd fa g wr q lim l1 z p rest hz hz0 hg hd hl hstar
    have hmiss := radius_step_miss g wr (pyLower q) z l1 hz0 hg
    refine ⟨hmiss, ?_⟩
    subst hl
    rw [ranker_nonempty_path fbd fa g wr q lim p rest hd, hz]
    rw [hmiss]
    rw [score_candidates_head_no_star q (pyLower q)
      (find_drg (split_ws (pyLower q))) (some z) p rest hstar]

/-- C1 witness: concrete instances of both halves of the amended claim. -/
theorem c1_witness :
    get_providers (fun _ => (none, none)) (fun _ _ _ _ _ => false) none
        (some 99999) (some (40 : ℚ)) [] =
      .error ("Could not geocode zip code: 99999") ∧
    (radius_filter_step (fun _ => (some 0, some 0)) (fun _ _ _ _ _ => false)
        (pyLower ("clinic 54321")) (some 54321) [fixProviderW] =
        [fixProviderW] ∧
     get_relevant_providers (fun _ => .ok []) (fun _ => .ok [fixProviderW])
        (fun _ => (some 0, some 0)) (fun _ _ _ _ _ => false)
        ("clinic 54321") 10 = []) :=
  ⟨c1_amended.1 (fun _ => (none, none)) (fun _ _ _ _ _ => false) none
      99999 40 [] (Or.inl rfl),
   c1_amended.2 (fun _ => .ok []) (fun _ => .ok [fixProviderW])
      (fun _ => (some 0, some 0)) (fun _ _ _ _ _ => false) ("clinic 54321")
      10 [fixProviderW] 54321 fixProviderW [] (by decide) (by decide)
      (Or.inl (by decide)) rfl rfl rfl⟩

/-! ### C5: the radius hint -/

/-- Helper: the declarative reading of the radius extraction loop. -/
theorem radius_loop_eq (ql : String) (ws : List String) :
    radius_loop ql 40 ws =
      (if radius_keywords.any (fun k => containsSub k ql) then
        (match ws.find? isDigitTok with
         | some w => ((digitsVal w : Nat) : ℚ)
         | none => 40)
      else 40) := by
  induction ws with
  | nil => simp [radius_loop]
  | cons w ws ih =>
    by_cases hk : radius_keywords.any (fun k => containsSub k ql) = true
    · by_cases hd : isDigitTok w = true
      · simp [radius_loop, hk, hd, List.find?_cons_of_pos]
      · rw [List.find?_cons_of_neg _ (by simp [hd])] at *
        simp only [radius_loop, hk, hd, false_and, and_true, if_false]
        simpa [hk] using ih
    · simp only [radius_loop, hk, and_false, if_false]
      simpa [hk] using ih

/-- C5 counterexample: for the query "hospitals within 2.5 km" the spec
reading (first purely numeric token allowing one decimal point, honored
because distance keywords occur) yields 2.5, but the source, whose token
test isdigit rejects a decimal point, leaves the default 40. -/
theorem c5_counterexample :
    extract_radius ("hospitals within 2.5 km") = 40 ∧
    spec_radius ("hospitals within 2.5 km") = Rat.divInt 5 2 ∧
    Rat.divInt 5 2 ≠ (40 : ℚ) := by
  refine ⟨by decide, by decide, by decide⟩

/-- C5 amended: the radius hint is the first token consisting solely of
digits — a token containing a decimal point is never selected — and it is
honored only when the query contains one of the distance keywords as a
substring; in every other case the radius is exactly 40. -/
theorem c5_amended (ql : String) :
    extract_radius ql =
      (if radius_keywords.any (fun k => containsSub k ql) then
        (match (split_ws ql).find? isDigitTok with
         | some w => ((digitsVal w : Nat) : ℚ)
         | none => 40)
      else 40) :=
  radius_loop_eq ql (split_ws ql)

/-! ### C8: zero candidates is an empty list, not an error -/

/-- C8: when the filtering steps (DRG pre-filter with fallback, or radius
filter) leave zero candidates, the ranker returns the empty list. -/
theorem c8_empty_after_filtering (fbd : Int → Except String (List Provider))
    (fa : Unit → Except String (List Provider))
    (g : String → Option ℚ × Option ℚ) (wr : ℚ → ℚ → ℚ → ℚ → ℚ → Bool)
    (q : String) (lim : Nat) (l1 : List Provider)
    (hd : drg_candidates fbd fa (find_drg (split_ws (pyLower q))) = .ok l1) :
    (l1 = [] → get_relevant_providers fbd fa g wr q lim = []) ∧
    (radius_filter_step g wr (pyLower q) (find_zip (split_ws (pyLower q))) l1
        = [] → get_relevant_providers fbd fa g wr q lim = []) := by
  constructor
  · intro h
    subst h
    unfold get_relevant_providers
    simp only [ranker_body]
    rw [hd]
    simp
  · intro h
    cases l1 with
    | nil =>
      unfold get_relevant_providers
      simp only [ranker_body]
      rw [hd]
      simp
    | cons x xs =>
      rw [ranker_nonempty_path fbd fa g wr q lim x xs hd]
      rw [h]
      show rank_and_take lim [] = []
      exact rank_and_take_nil lim

/-- C8 witness: a query over an empty stored collection returns []. -/
theorem c8_witness :
    get_relevant_providers (fun _ => .ok []) (fun _ => .ok [])
      (fun _ => (none, none)) (fun _ _ _ _ _ => false)
      ("best hospital") 10 = [] :=
  (c8_empty_after_filtering (fun _ => .ok []) (fun _ => .ok [])
    (fun _ => (none, none)) (fun _ _ _ _ _ => false) ("best hospital") 10 []
    rfl).1 rfl

/-! ### C9: the ranker absorbs internal failures -/

/-- C9: any exception escaping the try-block body of the ranker (an error
value of ranker_body, such as a database fetch raising) is absorbed by
the handler: the caller receives the empty list, never the exception. -/
theorem c9_no_exception_to_caller (fbd : Int → Except String (List Provider))
    (fa : Unit → Except String (List Provider))
    (g : String → Option ℚ × Option ℚ) (wr : ℚ → ℚ → ℚ → ℚ → ℚ → Bool)
    (q : String) (lim : Nat) (e : String)
    (h : ranker_body fbd fa g wr q lim = .error e) :
    get_relevant_providers fbd fa g wr q lim = [] := by
  unfold get_relevant_providers
  rw [h]

/-- C9 witness: a raising database fetch yields the empty list. -/
theorem c9_witness :
    get_relevant_providers (fun _ => Except.error ("db down"))
      (fun _ => Except.error ("db down")) (fun _ => (none, none))
      (fun _ _ _ _ _ => false) ("cardiac care") 10 = [] :=
  c9_no_exception_to_caller (fun _ => Except.error ("db down"))
    (fun _ => Except.error ("db down")) (fun _ => (none, none))
    (fun _ _ _ _ _ => false) ("cardiac care") 10 ("db down") rfl

/-! ### C2: row validation rejections -/

/-- C2: a row whose zip, DRG, or any of the three monetary fields fails to
parse is rejected by the validator with a reason, the error counter
increments by exactly one, no record for the row is added or committed,
and processing continues with the remaining rows (the loop over the rest
is unchanged); the validator is a total function, modelling that it never
throws to its caller. -/
theorem c2_invalid_row_rejected (coords : List (String × ℚ × ℚ))
    (row : RawRow) (rest : List RawRow) (committed pending : List Provider)
    (processed errors : Nat)
    (h : parseIntPy (pyStrip row.zip5) = none ∨ parseIntPy row.drg_cd = none ∨
      parseDecimalPy row.avg_cov_chrg = none ∨
      parseDecimalPy row.avg_tot_pymt = none ∨
      parseDecimalPy row.avg_mdcr_pymt = none) :
    (∃ msg, validate_row coords row = .error msg) ∧
    insert_loop coords none committed pending processed errors (row :: rest) =
      insert_loop coords none committed pending processed (errors + 1) rest := by
  have hrej : ∃ msg, validate_row coords row = .error msg := by
    simp only [validate_row]
    cases hz : parseIntPy (pyStrip row.zip5) with
    | none => exact ⟨_, rfl⟩
    | some zc =>
      cases hdg : parseIntPy row.drg_cd with
      | none => exact ⟨_, rfl⟩
      | some d =>
        cases h1 : parseDecimalPy row.avg_cov_chrg with
        | none => exact ⟨_, rfl⟩
        | some a =>
          cases h2 : parseDecimalPy row.avg_tot_pymt with
          | none => exact ⟨_, rfl⟩
          | some b =>
            cases h3 : parseDecimalPy row.avg_mdcr_pymt with
            | none => exact ⟨_, rfl⟩
            | some c =>
              rw [hz, hdg, h1, h2, h3] at h
              simp at h
  obtain ⟨msg, hm⟩ := hrej
  exact ⟨⟨msg, hm⟩, by simp only [insert_loop, hm]⟩

/-- C2 witness: a row whose zip field is the non-numeric token CSV. -/
theorem c2_witness :
    (∃ msg, validate_row [] fixRowBadZip = .error msg) ∧
    insert_loop [] none [] [] 0 0 [fixRowBadZip] =
      insert_loop [] none [] [] 0 1 [] :=
  c2_invalid_row_rejected [] fixRowBadZip [] [] [] 0 0 (Or.inl (by decide))

/-! ### C3: the persistence writer -/

/-- Helper: with no storage fault the insert loop commits exactly the
validated records after the already committed and pending ones, counts
them, and counts the rejected rows. -/
theorem insert_loop_no_fault (coords : List (String × ℚ × ℚ))
    (rows : List RawRow) :
    ∀ committed pending processed errors,
    insert_loop coords none committed pending processed errors rows =
      { committed := committed ++ pending ++ validList coords rows,
        processed := processed + (validList coords rows).length,
        errors := errors + countErr coords rows,
        ok := true } := by
  induction rows with
  | nil =>
    intro c pe pr er
    simp [insert_loop, tick, validList, countErr]
  | cons r rest ih =>
    intro c pe pr er
    cases hv : validate_row coords r with
    | error m =>
      simp only [insert_loop, hv, validList, countErr]
      rw [ih]
      simp [LoadResult.mk.injEq]
      omega
    | ok p0 =>
      simp only [insert_loop, hv, tick, validList, countErr]
      by_cases hb : (pr + 1) % 1000 = 0
      · simp only [hb, beq_self_eq_true, if_true]
        rw [ih]
        simp [LoadResult.mk.injEq, List.append_assoc]
        omega
      · have hb2 : ((pr + 1) % 1000 == 0) = false := by
          simp [hb]
        simp only [hb2, Bool.false_eq_true, if_false]
        rw [ih]
        simp [LoadResult.mk.injEq, List.append_assoc]
        omega

/-- C3 counterexample: with two valid rows and a one-shot storage fault
raised by the add of the first row (the fourth storage operation, after
the connection probe, the delete and its commit), the run does not stop:
the fault is caught by the per-row handler as a row error, the second row
is still inserted and committed, and the run reports success. This
refutes the claim that any storage-layer exception stops processing of
further rows. -/
theorem c3_counterexample :
    load_rows [] (some 3) [fixProviderA] [fixRowA, fixRowB] =
      { committed := [fixProvB], processed := 1, errors := 1, ok := true } := by
  decide

/-- C3 amended: the writer deletes all stored records and commits, then
inserts, committing every 1000 processed records with a final commit.
With no storage fault the stored set is replaced by exactly the validated
records. A storage exception during the connection probe or the delete
phase aborts the run with the initial store intact, and one at the final
commit rolls back the pending remainder and reports failure with the
already committed batches retained. But a storage exception raised by an
individual add is caught by the per-row handler, counted as a row error,
and processing continues; one raised by an intra-loop batch commit is
likewise caught and counted, its in-flight batch is rolled back and never
persisted, and processing continues with the remaining rows. -/
theorem c3_amended :
    (∀ (coords : List (String × ℚ × ℚ)) (init : List Provider)
       (rows : List RawRow),
       load_rows coords none init rows =
         { committed := validList coords rows,
           processed := (validList coords rows).length,
           errors := countErr coords rows, ok := true }) ∧
    (∀ (coords : List (String × ℚ × ℚ)) (t : Nat) (init : List Provider)
       (rows : List RawRow), t < 3 →
       load_rows coords (some t) init rows =
         { committed := init, processed := 0, errors := 0, ok := false }) ∧
    (∀ (coords : List (String × ℚ × ℚ)) (committed pending : List Provider)
       (processed errors : Nat) (r : RawRow) (rest : List RawRow)
       (p0 : Provider), validate_row coords r = .ok p0 →
       insert_loop coords (some 0) committed pending processed errors
           (r :: rest) =
         insert_loop coords none committed pending processed (errors + 1)
           rest) ∧
    (∀ (coords : List (String × ℚ × ℚ)) (committed pending : List Provider)
       (processed errors : Nat) (r : RawRow) (rest : List RawRow)
       (p0 : Provider), validate_row coords r = .ok p0 →
       (processed + 1) % 1000 = 0 →
       insert_loop coords (some 1) committed pending processed errors
           (r :: rest) =
         insert_loop coords none committed [] (processed + 1) (errors + 1)
           rest) ∧
    (∀ (coords : List (String × ℚ × ℚ)) (committed pending : List Provider)
       (processed errors : Nat),
       insert_loop coords (some 0) committed pending processed errors [] =
         { committed := committed, processed := processed, errors := errors,
           ok := false }) := by
  refine ⟨?_, ?_, ?_, ?_, ?_⟩
  · intro coords init rows
    simp only [load_rows, tick]
    rw [insert_loop_no_fault]
    simp
  · intro coords t init rows ht
    rcases t with _ | _ | _ | t
    · rfl
    · rfl
    · rfl
    · omega
  · intro coords c pe pr er r rest p0 hv
    simp only [insert_loop, hv, tick]
  · intro coords c pe pr er r rest p0 hv hb
    simp only [insert_loop, hv, tick, hb, beq_self_eq_true, if_true]
  · intro coords c pe pr er
    rfl

/-- C3 witness: concrete instances of the delete-phase abort, the caught
add fault, the caught batch-commit fault with its batch rolled back, and
the final-commit abort. -/
theorem c3_witness :
    load_rows [] (some 1) [fixProviderA] [fixRowA] =
      { committed := [fixProviderA], processed := 0, errors := 0,
        ok := false } ∧
    insert_loop [] (some 0) [] [] 0 0 [fixRowA] =
      insert_loop [] none [] [] 0 1 [] ∧
    insert_loop [] (some 1) [] [] 999 0 [fixRowA] =
      insert_loop [] none [] [] 1000 1 [] ∧
    insert_loop [] (some 0) [fixProvB] [fixProvA] 7 2 [] =
      { committed := [fixProvB], processed := 7, errors := 2, ok := false } :=
  ⟨c3_amended.2.1 [] 1 [fixProviderA] [fixRowA] (by omega),
   c3_amended.2.2.1 [] [] [] 0 0 fixRowA [] fixProvA rfl,
   c3_amended.2.2.2.1 [] [] [] 999 0 fixRowA [] fixProvA rfl (by decide),
   c3_amended.2.2.2.2 [] [fixProvB] [fixProvA] 7 2⟩

/-! ### C4: the zip-area bonus -/

/-- C4 counterexample: for the query "procedure 90210", whose zip hint
geocodes successfully, the candidate passes radius filtering (it has
coordinates and the membership test accepts it) — so the claim requires
the +20 bonus to be added to it. But the stored record has no star_rating
attribute, so its scoring raises AttributeError before the bonus line is
ever reached: no score and no bonus exist for any candidate, and the
ranker returns the empty list. The claim is false at this input: zip hint
present and radius filtering passed, yet no +20 is added. -/
theorem c4_counterexample :
    radius_filter_step (fun _ => (some 40, some (-70)))
        (fun _ _ _ _ _ => true) (pyLower ("procedure 90210")) (some 90210)
        [fixProviderB] = [fixProviderB] ∧
    score_provider ("procedure 90210") (pyLower ("procedure 90210")) none
        (some 90210) fixProviderB = .error ("AttributeError: star_rating") ∧
    get_relevant_providers (fun _ => .ok []) (fun _ => .ok [fixProviderB])
      (fun _ => (some 40, some (-70))) (fun _ _ _ _ _ => true)
      ("procedure 90210") 10 = [] :=
  ⟨by decide, rfl, by decide⟩

/-- C4 amended: in the source the +20 bonus line is guarded solely by
truthiness of the zip hint, not by passing radius filtering: a candidate
whose scoring completes receives core score plus 20 exactly when the zip
hint is truthy, and when the hinted zip geocodes to a truthy coordinate
pair the candidate set passed to scoring is exactly the radius-filtered
set, while on a geocode failure no candidate is excluded. However, on the
records this repository stores, scoring never completes: the attribute
read raises at the first candidate, so no candidate ever receives any
score or bonus and the ranker returns an empty list. -/
theorem c4_amended :
    (∀ (q ql : String) (df zf : Option Int) (p : Provider),
       score_provider q ql df zf p =
         Except.map (fun s => s + (if optTruthyInt zf then (20 : ℚ) else 0))
           (score_core q ql df zf p)) ∧
    (∀ (q ql : String) (df zf : Option Int) (p : Provider)
       (rest : List Provider), p.star_rating = none →
       score_candidates q ql df zf (p :: rest) =
         .error ("AttributeError: star_rating")) ∧
    (∀ (g : String → Option ℚ × Option ℚ) (wr : ℚ → ℚ → ℚ → ℚ → ℚ → Bool)
       (ql : String) (z : Int) (la lo : ℚ) (l1 : List Provider),
       z ≠ 0 → g (zfill5 (toString z)) = (some la, some lo) →
       la ≠ 0 → lo ≠ 0 →
       radius_filter_step g wr ql (some z) l1 =
         l1.filter (fun p =>
           match p.latitude, p.longitude with
           | some pla, some plo => wr la lo pla plo (extract_radius ql)
           | _, _ => false)) ∧
    (∀ (g : String → Option ℚ × Option ℚ) (wr : ℚ → ℚ → ℚ → ℚ → ℚ → Bool)
       (ql : String) (z : Int) (l1 : List Provider),
       z ≠ 0 →
       (pyTruthyOpt (g (zfill5 (toString z))).1 = false ∨
        pyTruthyOpt (g (zfill5 (toString z))).2 = false) →
       radius_filter_step g wr ql (some z) l1 = l1) := by
  refine ⟨?_, ?_, ?_, ?_⟩
  · intro q ql df zf p
    cases h : score_core q ql df zf p <;>
      simp [score_provider, h, Except.map]
  · intro q ql df zf p rest h
    exact score_candidates_head_no_star q ql df zf p rest h
  · intro g wr ql z la lo l1 hz hp hla hlo
    simp only [radius_filter_step, hp]
    simp [hz, hla, hlo]
  · intro g wr ql z l1 hz hg
    exact radius_step_miss g wr ql z l1 hz hg

/-- C4 witness: concrete instances of the scoring abort on a record
without the attribute, of the geocode success where the candidate set is
the radius-filtered set, and of the geocode miss where nothing is
excluded. -/
theorem c4_witness :
    score_candidates ("procedure 90210") (pyLower ("procedure 90210")) none
        (some 90210) [fixProviderB] = .error ("AttributeError: star_rating") ∧
    radius_filter_step (fun _ => (some 40, some (-70)))
        (fun _ _ _ _ _ => true) ("near 10001") (some 10001) [fixProviderW] =
      [fixProviderW].filter (fun p =>
        match p.latitude, p.longitude with
        | some pla, some plo =>
          (fun _ _ _ _ _ => true : ℚ → ℚ → ℚ → ℚ → ℚ → Bool) 40 (-70) pla plo
            (extract_radius ("near 10001"))
        | _, _ => false) ∧
    radius_filter_step (fun _ => (none, none)) (fun _ _ _ _ _ => true)
        ("near 10001") (some 10001) [fixProviderW] = [fixProviderW] :=
  ⟨c4_amended.2.1 ("procedure 90210") (pyLower ("procedure 90210")) none
     (some 90210) fixProviderB [] rfl,
   c4_amended.2.2.1 (fun _ => (some 40, some (-70))) (fun _ _ _ _ _ => true)
     ("near 10001") 10001 40 (-70) [fixProviderW] (by decide) rfl
     (by decide) (by decide),
   c4_amended.2.2.2 (fun _ => (none, none)) (fun _ _ _ _ _ => true)
     ("near 10001") 10001 [fixProviderW] (by decide) (Or.inl rfl)⟩

/-! ### C10: a zero coordinate in the reference table is a miss -/

/-- C10: if the reference-table entry for a zip yields latitude exactly 0
or longitude exactly 0, the zip is dropped from the zip-to-coordinate
mapping built during ingestion, and every record the validator produces
for that zip has both latitude and longitude absent. -/
theorem c10_zero_coord_is_miss (table : List (String × ℚ × ℚ)) (k : String)
    (la lo : ℚ) (zips : List String)
    (hg : geocode_zip_code table k = (some la, some lo))
    (h0 : la = 0 ∨ lo = 0) :
    coordsLookup (build_zip_coords table zips) k = (none, none) ∧
    (∀ (row : RawRow) (p : Provider), zfill5 (pyStrip row.zip5) = k →
      validate_row (build_zip_coords table zips) row = .ok p →
      p.latitude = none ∧ p.longitude = none) := by
  have hlook : coordsLookup (build_zip_coords table zips) k = (none, none) := by
    induction zips with
    | nil => rfl
    | cons z zs ih =>
      rcases hz2 : geocode_zip_code table z with ⟨a, b⟩
      rcases a with _ | la2 <;> rcases b with _ | lo2
      · simp only [build_zip_coords, hz2]
        exact ih
      · simp only [build_zip_coords, hz2]
        exact ih
      · simp only [build_zip_coords, hz2]
        exact ih
      · simp only [build_zip_coords, hz2]
        by_cases hc : la2 ≠ 0 ∧ lo2 ≠ 0
        · rw [if_pos hc]
          by_cases hzk : z = k
          · subst hzk
            rw [hg] at hz2
            simp only [Prod.mk.injEq, Option.some.injEq] at hz2
            obtain ⟨h1, h2⟩ := hz2
            subst h1
            subst h2
            rcases h0 with h0 | h0
            · exact absurd h0 hc.1
            · exact absurd h0 hc.2
          · simp only [coordsLookup] at ih ⊢
            rw [List.find?_cons_of_neg _ (by simp [hzk])]
            exact ih
        · rw [if_neg hc]
          exact ih
  refine ⟨hlook, ?_⟩
  intro row p hk hv
  simp only [validate_row] at hv
  cases hz : parseIntPy (pyStrip row.zip5) with
  | none => rw [hz] at hv; exact absurd hv (by simp)
  | some zc =>
    rw [hz] at hv
    cases hdg : parseIntPy row.drg_cd with
    | none => rw [hdg] at hv; exact absurd hv (by simp)
    | some d =>
      rw [hdg] at hv
      cases h1 : parseDecimalPy row.avg_cov_chrg with
      | none => rw [h1] at hv; exact absurd hv (by simp)
      | some a =>
        rw [h1] at hv
        cases h2 : parseDecimalPy row.avg_tot_pymt with
        | none => rw [h2] at hv; exact absurd hv (by simp)
        | some b =>
          rw [h2] at hv
          cases h3 : parseDecimalPy row.avg_mdcr_pymt with
          | none => rw [h3] at hv; exact absurd hv (by simp)
          | some c =>
            rw [h3] at hv
            cases h4 : parseDecimalPy row.tot_dschrgs with
            | none => rw [h4] at hv; exact absurd hv (by simp)
            | some dd =>
              rw [h4] at hv
              simp only [Except.ok.injEq] at hv
              subst hv
              rw [hk, hlook]
              exact ⟨rfl, rfl⟩

/-- C10 witness: the table entry for 00501 has latitude 0; its zip is
dropped from the mapping and the validated record for a row with that zip
has no coordinates. -/
theorem c10_witness :
    coordsLookup (build_zip_coords fixTableZ ["00501"]) ("00501") =
      (none, none) ∧
    (fixProvZ.latitude = none ∧ fixProvZ.longitude = none) :=
  ⟨(c10_zero_coord_is_miss fixTableZ ("00501") 0 40 ["00501"] (by decide)
      (Or.inl rfl)).1,
   (c10_zero_coord_is_miss fixTableZ ("00501") 0 40 ["00501"] (by decide)
      (Or.inl rfl)).2 fixRowZ fixProvZ (by decide) rfl⟩

end ProvidersApi
